import Mathlib

/-!
# Verification of the Hella_Turbo_Controller protocol engine

Shallow embedding of the CAN protocol engine of the
`jlaustill/Hella_Turbo_Controller` repository (the compiled Python module
`hella_prog`, the TypeScript `canService`, and the Vue memory viewer),
together with theorems checking the natural-language specification
against it.

Modelling conventions:
* A CAN frame is `CanMsg`: an identifier plus a list of payload bytes
  (bytes as `Nat`, always in `[0, 255]` where the code builds them).
* A receive window (everything the transport delivers within one poll
  deadline) is a `List CanMsg`; polling loops take the first frame the
  code's acceptance test passes, and an exhausted list models the
  timeout.
* The source artifact for the Python module is a compiled file whose
  text regions were damaged by a lossy transcoding; a handful of payload
  bytes of fixed calibration frames are unreadable there.  Those bytes
  enter the definitions as explicit parameters (`v1`, `x1` … `x4`), so
  every theorem below holds for all possible values of the unreadable
  bytes.  All opcodes, identifiers, dynamic frames, bounds, sets, and
  formulas are readable and embedded literally.
-/

namespace Hella

/-- A CAN bus frame: arbitration identifier and payload bytes. -/
structure CanMsg where
  arbitrationId : Nat
  data : List Nat
deriving DecidableEq, Repr

/-- `REQUEST_ID = 0x3F0`: identifier the engine transmits on. -/
def REQUEST_ID : Nat := 0x3F0

/-- `MEMORY_RESPONSE_ID = 0x3E8`: identifier of memory-read responses. -/
def MEMORY_RESPONSE_ID : Nat := 0x3E8

/-- `POSITION_RESPONSE_ID = 0x658`: identifier of telemetry frames. -/
def POSITION_RESPONSE_ID : Nat := 0x658

/-- `ACK_RESPONSE_ID = 0x3EB`: identifier of acknowledgment frames. -/
def ACK_RESPONSE_ID : Nat := 0x3EB

/-- `REQUEST_MSG`: payload of the fixed handshake request frame. -/
def REQUEST_MSG : List Nat := [0x49, 0, 0, 0, 0, 0, 0, 0]

/-- `MEMORY_SIZE = 128`: number of addressable memory bytes. -/
def MEMORY_SIZE : Nat := 128

/-- `HARDCODED_Z_VALUE = 99`: fixed third calibration byte. -/
def HARDCODED_Z_VALUE : Nat := 99

/-- The handshake request frame sent by `_send_request_and_wait`. -/
def reqFrame : CanMsg := ⟨REQUEST_ID, REQUEST_MSG⟩

/-- First frame of a receive window passing an acceptance test; `none`
models the poll loop running into its deadline. -/
def firstAccepted (accept : CanMsg → Bool) : List CanMsg → Option CanMsg
  | [] => none
  | m :: rest => if accept m then some m else firstAccepted accept rest

/-- Acceptance test of `_wait_for_ack`: identifier `ACK_RESPONSE_ID`,
at least 8 payload bytes, and byte 7 equal to `0x53`. -/
def ackAccept (m : CanMsg) : Bool :=
  m.arbitrationId == ACK_RESPONSE_ID &&
    decide (8 ≤ m.data.length) && m.data.getD 7 0 == 0x53

/-- `_wait_for_ack`: poll until an acceptable acknowledgment arrives or
the window is exhausted. -/
def wait_for_ack (window : List CanMsg) : Option CanMsg :=
  firstAccepted ackAccept window

/-- `_send_request_and_wait`: send the handshake frame once, then wait
for an acknowledgment; the second component lists the frames sent. -/
def send_request_and_wait (window : List CanMsg) :
    Except String Unit × List CanMsg :=
  (match wait_for_ack window with
   | some _ => .ok ()
   | none => .error "No acknowledgment received", [reqFrame])

/-- Acceptance test of the memory-read poll loops (`readmemory` and
`_read_position_value`): identifier `MEMORY_RESPONSE_ID` and a
non-empty payload.  Payload byte 1 is never inspected. -/
def memAccept (m : CanMsg) : Bool :=
  m.arbitrationId == MEMORY_RESPONSE_ID && decide (0 < m.data.length)

/-- The memory-read request frame `[0x31, 0x0C, n, 0, …]` for address `n`. -/
def memRequestFrame (n : Nat) : CanMsg :=
  ⟨REQUEST_ID, [0x31, 0x0C, n, 0, 0, 0, 0, 0]⟩

/-- One address read: the collected byte is payload byte 0 of the first
accepted frame of the window for that address, `none` on timeout. -/
def readAddr (env : Nat → List CanMsg) (n : Nat) : Option Nat :=
  (firstAccepted memAccept (env n)).map fun m => m.data.getD 0 0

/-- Failure cases of `readmemory`: missing handshake acknowledgment, or
the memory response for one address timing out. -/
inductive ReadErr where
  | noAck : ReadErr
  | noResponse : Nat → ReadErr
deriving DecidableEq, Repr

/-- The per-address loop of `readmemory` starting at address `s` with
`k` addresses to go.  First component: the overall outcome (the
collected image, or the first failing address).  Second component: the
bytes the loop has already appended to the dump file, which the code
writes incrementally as each response arrives. -/
def readmemory_loop (env : Nat → List CanMsg) :
    Nat → Nat → Except ReadErr (List Nat) × List Nat
  | _, 0 => (.ok [], [])
  | s, k + 1 =>
    match readAddr env s with
    | none => (.error (.noResponse s), [])
    | some b =>
      let r := readmemory_loop env (s + 1) k
      (r.1.map fun bs => b :: bs, b :: r.2)

/-- `readmemory`: one handshake, then the 128-address loop.  The second
component is the content of the dump file when the call returns or
raises. -/
def readmemory (ackWindow : List CanMsg) (env : Nat → List CanMsg) :
    Except ReadErr (List Nat) × List Nat :=
  match wait_for_ack ackWindow with
  | none => (.error .noAck, [])
  | some _ => readmemory_loop env 0 MEMORY_SIZE

/-- Failure cases of `write_memory_byte`: out-of-range argument, or the
handshake acknowledgment missing (which the code wraps into an
address-tagged write failure). -/
inductive WmbErr where
  | invalidAddress : Nat → WmbErr
  | invalidValue : Nat → WmbErr
  | writeFailed : Nat → WmbErr
deriving DecidableEq, Repr

instance {ε α : Type} [DecidableEq ε] [DecidableEq α] :
    DecidableEq (Except ε α) := fun a b =>
  match a, b with
  | .ok x, .ok y => decidable_of_iff (x = y) (by simp)
  | .error e, .error f => decidable_of_iff (e = f) (by simp)
  | .ok _, .error _ => isFalse (by simp)
  | .error _, .ok _ => isFalse (by simp)

/-- Observable outcome of one `write_memory_byte` call: the result, the
frames sent to the transport in order, whether the dangerous-address
warning was logged, and the reply frames read and discarded after the
write sequence. -/
structure WmbRun where
  result : Except WmbErr Unit
  framesSent : List CanMsg
  warned : Bool
  drained : List CanMsg
deriving DecidableEq, Repr

/-- `DANGEROUS_ADDRESSES`: the frozen set of addresses
`write_memory_byte` warns about. -/
def DANGEROUS_ADDRESSES : List Nat :=
  [0x09, 0x0A, 0x10, 0x24, 0x25, 0x27, 0x28, 0x29, 0x41]

/-- The 16-payload write sequence of `write_memory_byte`.  `address` and
`value` parameterize the two dynamic frames (positions 6 and 7); `v1`
is the one unreadable byte of the recurring fixed frame
`[0x31, 0x00, v1, …]`, and `x1 … x4` are the four fixed payloads that
are entirely unreadable in the damaged artifact.  No payload depends on
whether the address is dangerous. -/
def wmbMsgs (v1 : Nat) (x1 x2 x3 x4 : List Nat) (address value : Nat) :
    List (List Nat) :=
  [[0x31, 0x00, v1, 0, 0, 0, 0, 0],
   [0x31, 0x01, 0x5D, 0, 0, 0, 0, 0],
   [0x57, 0, 0, 0x05, 0, 0, 0, 0],
   [0x31, 0x00, v1, 0, 0, 0, 0, 0],
   [0x31, 0x00, v1, 0, 0, 0, 0, 0],
   [0x57, 0, 0, 0x2D, 0, 0, 0, 0],
   [0x31, 0x0C, address, 0, 0, 0, 0, 0],
   [0x57, 0, 0, value, 0, 0, 0, 0],
   [0x31, 0x00, v1, 0, 0, 0, 0, 0],
   x1,
   [0x31, 0x00, v1, 0, 0, 0, 0, 0],
   x2,
   [0x31, 0x01, 0x5D, 0, 0, 0, 0, 0],
   x3,
   [0x31, 0x00, v1, 0, 0, 0, 0, 0],
   x4]

/-- `write_memory_byte address value`: validate both ranges (raising
before anything reaches the bus), log the dangerous-address warning if
applicable, perform the handshake, send the 16-frame write sequence,
then read and discard every reply of the post-write window.  Arguments
are `Nat`, so the code's lower bounds `0 ≤ address`, `0 ≤ value` hold
by construction. -/
def write_memory_byte (v1 : Nat) (x1 x2 x3 x4 : List Nat)
    (address value : Nat) (ackWindow postWindow : List CanMsg) : WmbRun :=
  if 127 < address then ⟨.error (.invalidAddress address), [], false, []⟩
  else if 255 < value then ⟨.error (.invalidValue value), [], false, []⟩
  else
    let warned := decide (address ∈ DANGEROUS_ADDRESSES)
    match wait_for_ack ackWindow with
    | none => ⟨.error (.writeFailed address), [reqFrame], warned, []⟩
    | some _ =>
      ⟨.ok (),
       reqFrame ::
         (wmbMsgs v1 x1 x2 x3 x4 address value).map fun d => ⟨REQUEST_ID, d⟩,
       warned, postWindow⟩

/-- The recurring value-carrying calibration payload `[0x57, 0, 0, b, …]`. -/
def valueFrame (b : Nat) : List Nat := [0x57, 0, 0, b, 0, 0, 0, 0]

/-- `set_max`: high byte of the target position, `x = (pos >> 8) & 0xFF`. -/
def set_max_x (pos : Nat) : Nat := (pos >>> 8) &&& 0xFF

/-- `set_max`: low byte of the target position, `y = pos & 0xFF`. -/
def set_max_y (pos : Nat) : Nat := pos &&& 0xFF

/-- `set_max`: third calibration byte, `z = HARDCODED_Z_VALUE`. -/
def set_max_z : Nat := HARDCODED_Z_VALUE

/-- `set_min`: high byte, computed exactly as in `set_max`. -/
def set_min_x (pos : Nat) : Nat := (pos >>> 8) &&& 0xFF

/-- `set_min`: low byte, computed exactly as in `set_max`. -/
def set_min_y (pos : Nat) : Nat := pos &&& 0xFF

/-- `set_min`: third calibration byte, `z = HARDCODED_Z_VALUE`. -/
def set_min_z : Nat := HARDCODED_Z_VALUE

/-- `set_minmax`: high byte, taken from `minpos` only. -/
def set_minmax_x (minpos : Nat) : Nat := (minpos >>> 8) &&& 0xFF

/-- `set_minmax`: low byte, taken from `minpos` only. -/
def set_minmax_y (minpos : Nat) : Nat := minpos &&& 0xFF

/-- `set_minmax`: third calibration byte,
`z = int((maxpos - minpos) / 4)` (as called, `maxpos ≥ minpos`). -/
def set_minmax_z (minpos maxpos : Nat) : Nat := (maxpos - minpos) / 4

/-- The three value-parameterized payloads of the `set_max` sequence, in
the order they occur (frame positions 7, 9 and 21 of its fixed
34-frame sequence). -/
def set_max_value_frames (pos : Nat) : List (List Nat) :=
  [valueFrame (set_max_x pos), valueFrame (set_max_y pos),
   valueFrame set_max_z]

/-- The three value-parameterized payloads of the `set_min` sequence. -/
def set_min_value_frames (pos : Nat) : List (List Nat) :=
  [valueFrame (set_min_x pos), valueFrame (set_min_y pos),
   valueFrame set_min_z]

/-- The three value-parameterized payloads of the `set_minmax` sequence. -/
def set_minmax_value_frames (minpos maxpos : Nat) : List (List Nat) :=
  [valueFrame (set_minmax_x minpos), valueFrame (set_minmax_y minpos),
   valueFrame (set_minmax_z minpos maxpos)]

/-- The high-byte split as worded by the specification
(`high = (value >> 9) & 0xFF`); kept only to compare against the
source's `set_max_x` et al. -/
def spec_high_byte (v : Nat) : Nat := (v >>> 9) &&& 0xFF

/-- A decoded telemetry sample of `readCurrentPosition`.  `percentage`
is an `Int` because the code stores the sentinel `-1` when the position
is outside the calibrated window. -/
structure Telemetry where
  status : Nat
  position : Nat
  temperatureC : Nat
  motorLoad : Nat
  percentage : Int
deriving DecidableEq, Repr

/-- Field extraction of `readCurrentPosition` on an accepted telemetry
payload: `status = data[0]`, `position = (data[2] << 8) | data[3]`,
`temperature = data[5]` (0 if absent), `motorLoad = (data[6] << 8) |
data[7]` when at least 8 bytes are present (0 otherwise), and
`percentage = (688 - position) * 100 // 476` only for positions inside
`[212, 688]`, the sentinel `-1` otherwise. -/
def decodeTelemetry (b : List Nat) : Telemetry :=
  let position := (b.getD 2 0) <<< 8 ||| b.getD 3 0
  { status := b.getD 0 0
    position := position
    temperatureC := b.getD 5 0
    motorLoad :=
      if 8 ≤ b.length then (b.getD 6 0) <<< 8 ||| b.getD 7 0 else 0
    percentage :=
      if position ≤ 688 ∧ 212 ≤ position then
        (((688 - position) * 100) / 476 : Nat)
      else -1 }

/-- Acceptance test of `readCurrentPosition`: identifier
`POSITION_RESPONSE_ID` and at least 4 payload bytes. -/
def posAccept (m : CanMsg) : Bool :=
  m.arbitrationId == POSITION_RESPONSE_ID && decide (4 ≤ m.data.length)

/-- `readCurrentPosition`: position of the first accepted telemetry
frame of the window, `none` on timeout. -/
def readCurrentPosition (window : List CanMsg) : Option Nat :=
  (firstAccepted posAccept window).map fun m =>
    (m.data.getD 2 0) <<< 8 ||| m.data.getD 3 0

/-- `getPositionFormat` of the memory viewer: the CAN-ID derivation
`(data[0x2A] << 8) | (data[0x2C] << 2)` on images long enough to hold
both cells. -/
def getPositionFormat (data : List Nat) : Option Nat :=
  if 0x2C < data.length then
    some ((data.getD 0x2A 0) <<< 8 ||| (data.getD 0x2C 0) <<< 2)
  else none

/-- Telemetry frames a calibration poll loop logs: every frame of the
window carrying `POSITION_RESPONSE_ID`. -/
def positionFrames (w : List CanMsg) : List CanMsg :=
  w.filter fun m => m.arbitrationId == POSITION_RESPONSE_ID

/-- Observable outcome of `find_end_positions`: the telemetry frames it
printed while polling between phases, and its return value. -/
structure FepRun where
  printed : List CanMsg
  result : Option (Nat × Nat)
deriving DecidableEq, Repr

/-- `find_end_positions`: send the three fixed calibration phase
sequences, logging (without acting on) the telemetry received in the
poll windows between them, then restore normal mode.  The function body
ends without a `return` statement, so the call evaluates to `None` —
embedded as `result := none`. -/
def find_end_positions (w1 w2 w3 : List CanMsg) : FepRun :=
  { printed := positionFrames w1 ++ positionFrames w2 ++ positionFrames w3
    result := none }

/-! ## Test fixtures -/

/-- An acknowledgment frame the code accepts: byte 7 is `0x53`. -/
def ackOkFrame : CanMsg := ⟨ACK_RESPONSE_ID, [0, 0, 0, 0, 0, 0, 0, 0x53]⟩

/-- The acknowledgment frame the specification describes: `0x53` at
payload byte 1 (and nowhere else). -/
def specAckFrame : CanMsg := ⟨ACK_RESPONSE_ID, [0, 0x53, 0, 0, 0, 0, 0, 0]⟩

/-- An environment answering every address with the byte `0xAB`. -/
def envFull : Nat → List CanMsg :=
  fun _ => [⟨MEMORY_RESPONSE_ID, [0xAB, 0, 0, 0, 0, 0, 0, 0]⟩]

/-- An environment answering only address 0 (with the byte `0xAB`). -/
def envPartial : Nat → List CanMsg :=
  fun n => if n = 0 then [⟨MEMORY_RESPONSE_ID, [0xAB, 0, 0, 0, 0, 0, 0, 0]⟩] else []

/-- A memory response whose payload byte 1 (`0x63`) matches no address
being polled below. -/
def mismatchFrame : CanMsg := ⟨MEMORY_RESPONSE_ID, [0x07, 0x63, 0, 0, 0, 0, 0, 0]⟩

/-- A frame with an identifier foreign to the protocol. -/
def otherIdFrame : CanMsg := ⟨0x123, [1, 2, 3]⟩

/-! ## Helper lemmas -/

lemma firstAccepted_isSome_iff (p : CanMsg → Bool) (w : List CanMsg) :
    (firstAccepted p w).isSome = true ↔ ∃ m, m ∈ w ∧ p m = true := by
  induction w with
  | nil => simp [firstAccepted]
  | cons a t ih =>
    simp only [firstAccepted]
    by_cases h : p a = true
    · rw [if_pos h]
      simp only [Option.isSome_some, true_iff]
      exact ⟨a, List.mem_cons_self a t, h⟩
    · rw [if_neg h, ih]
      constructor
      · rintro ⟨m, hm, hpm⟩
        exact ⟨m, List.mem_cons_of_mem _ hm, hpm⟩
      · rintro ⟨m, hm, hpm⟩
        rcases List.mem_cons.mp hm with rfl | hm2
        · exact absurd hpm h
        · exact ⟨m, hm2, hpm⟩

lemma bytes_shift (env : Nat → List CanMsg) (s n b : Nat)
    (hb : readAddr env s = some b) :
    b :: (List.range n).map (fun i => (readAddr env (s + 1 + i)).getD 0) =
      (List.range (n + 1)).map fun i => (readAddr env (s + i)).getD 0 := by
  rw [List.range_succ_eq_map, List.map_cons, List.map_map]
  refine congrArg₂ List.cons ?_ ?_
  · rw [Nat.add_zero, hb]
    rfl
  · congr 1
    funext i
    have e : s + 1 + i = s + Nat.succ i := by omega
    simp [Function.comp, e]

lemma readmemory_loop_ok (env : Nat → List CanMsg) :
    ∀ k s, (∀ i, i < k → (readAddr env (s + i)).isSome = true) →
      readmemory_loop env s k =
        (.ok ((List.range k).map fun i => (readAddr env (s + i)).getD 0),
         (List.range k).map fun i => (readAddr env (s + i)).getD 0) := by
  intro k
  induction k with
  | zero => intro s _; simp [readmemory_loop]
  | succ n ih =>
    intro s h
    have h0 : (readAddr env s).isSome = true := by
      have := h 0 (Nat.succ_pos n)
      simpa using this
    obtain ⟨b, hb⟩ := Option.isSome_iff_exists.mp h0
    have hrest : ∀ i, i < n → (readAddr env (s + 1 + i)).isSome = true := by
      intro i hi
      have := h (i + 1) (Nat.succ_lt_succ hi)
      have e : s + (i + 1) = s + 1 + i := by omega
      rwa [e] at this
    simp only [readmemory_loop, hb, ih (s + 1) hrest, Except.map]
    rw [← bytes_shift env s n b hb]

lemma readmemory_loop_err (env : Nat → List CanMsg) :
    ∀ a k s, a < k → readAddr env (s + a) = none →
      (∀ i, i < a → (readAddr env (s + i)).isSome = true) →
      readmemory_loop env s k =
        (.error (.noResponse (s + a)),
         (List.range a).map fun i => (readAddr env (s + i)).getD 0) := by
  intro a
  induction a with
  | zero =>
    intro k s hk hnone _
    obtain ⟨m, rfl⟩ : ∃ m, k = m + 1 := ⟨k - 1, by omega⟩
    rw [Nat.add_zero] at hnone
    simp [readmemory_loop, hnone]
  | succ n ih =>
    intro k s hk hnone hsome
    obtain ⟨m, rfl⟩ : ∃ m, k = m + 1 := ⟨k - 1, by omega⟩
    have h0 : (readAddr env s).isSome = true := by
      have := hsome 0 (Nat.succ_pos n)
      simpa using this
    obtain ⟨b, hb⟩ := Option.isSome_iff_exists.mp h0
    have e1 : s + (n + 1) = s + 1 + n := by omega
    have ihm := ih m (s + 1) (by omega) (by rwa [e1] at hnone)
      (fun i hi => by
        have := hsome (i + 1) (Nat.succ_lt_succ hi)
        have e : s + (i + 1) = s + 1 + i := by omega
        rwa [e] at this)
    simp only [readmemory_loop, hb, ihm, Except.map]
    rw [e1, ← bytes_shift env s n b hb]

/-! ## Claim C1 -/

/-- Claim C1 (amended): every `readmemory` run with an acknowledged
handshake requests addresses 0–127 in ascending order; if every address
receives an accepted response, the call returns the complete 128-byte
image, equal to the file contents.  If some address gets no accepted
response while all earlier ones did, the call fails with an error
tagged with that address and returns no image — but the bytes of the
earlier addresses have already been persisted to the dump file (the
frozen claim's "never persisted" does not hold). -/
theorem C1_readmemory_amended (ackW : List CanMsg) (env : Nat → List CanMsg)
    (hack : (wait_for_ack ackW).isSome = true) :
    ((∀ a, a < 128 → (readAddr env a).isSome = true) →
      readmemory ackW env =
        (.ok ((List.range 128).map fun a => (readAddr env a).getD 0),
         (List.range 128).map fun a => (readAddr env a).getD 0)) ∧
    (∀ a, a < 128 → readAddr env a = none →
      (∀ i, i < a → (readAddr env i).isSome = true) →
      readmemory ackW env =
        (.error (.noResponse a),
         (List.range a).map fun i => (readAddr env i).getD 0)) := by
  obtain ⟨m, hm⟩ := Option.isSome_iff_exists.mp hack
  constructor
  · intro hall
    rw [readmemory, hm]
    have := readmemory_loop_ok env 128 0 (fun i hi => by simpa using hall i hi)
    simpa using this
  · intro a ha hnone hbefore
    rw [readmemory, hm]
    have := readmemory_loop_err env a 128 0 ha (by simpa using hnone)
      (fun i hi => by simpa using hbefore i hi)
    simpa using this

/-- Witness for C1: a bus answering every address yields the full
128-byte image, with the dump file holding exactly those bytes. -/
theorem C1_readmemory_amended_witness :
    readmemory [ackOkFrame] envFull =
      (.ok ((List.range 128).map fun a => (readAddr envFull a).getD 0),
       (List.range 128).map fun a => (readAddr envFull a).getD 0) :=
  (C1_readmemory_amended [ackOkFrame] envFull (by decide)).1 (by decide)

/-- Counterexample to the frozen C1: when only address 0 answers, the
run fails with an address-tagged error and returns no image, yet the
byte of address 0 has already been persisted to the dump file. -/
theorem C1_counterexample_partial_persist :
    (readmemory [ackOkFrame] envPartial).1 = .error (.noResponse 1) ∧
    (readmemory [ackOkFrame] envPartial).2 = [0xAB] ∧
    (readmemory [ackOkFrame] envPartial).2 ≠ [] := by decide

/-! ## Claim C2 -/

/-- Claim C2 (amended): in the memory-read poll loops a received frame
is accepted as the answer for address `a` if and only if it carries
`MEMORY_RESPONSE_ID` and a non-empty payload — payload byte 1 is never
compared against `a`.  Frames failing the test are skipped silently and
polling continues; the byte collected from an accepted frame is its
payload byte 0. -/
theorem C2_memory_matching_amended (m : CanMsg) (w : List CanMsg)
    (env : Nat → List CanMsg) (n : Nat) (r : CanMsg)
    (hr : firstAccepted memAccept (env n) = some r) :
    (memAccept m = true ↔
      m.arbitrationId = MEMORY_RESPONSE_ID ∧ 0 < m.data.length) ∧
    (memAccept m = false →
      firstAccepted memAccept (m :: w) = firstAccepted memAccept w) ∧
    (memAccept m = true → firstAccepted memAccept (m :: w) = some m) ∧
    readAddr env n = some (r.data.getD 0 0) := by
  refine ⟨?_, ?_, ?_, ?_⟩
  · simp [memAccept]
  · intro h
    simp [firstAccepted, h]
  · intro h
    simp [firstAccepted, h]
  · rw [readAddr, hr]
    rfl

/-- Witness for C2: a mismatched-payload frame passes the acceptance
test, an unrelated identifier is skipped, and the collected byte is
payload byte 0 of the accepted frame. -/
theorem C2_memory_matching_amended_witness :
    (memAccept mismatchFrame = true ↔
      mismatchFrame.arbitrationId = MEMORY_RESPONSE_ID ∧
        0 < mismatchFrame.data.length) ∧
    firstAccepted memAccept (otherIdFrame :: [mismatchFrame]) =
      firstAccepted memAccept [mismatchFrame] ∧
    readAddr (fun _ => [mismatchFrame]) 0 =
      some (mismatchFrame.data.getD 0 0) := by
  have h := C2_memory_matching_amended otherIdFrame [mismatchFrame]
    (fun _ => [mismatchFrame]) 0 mismatchFrame (by decide)
  exact ⟨(C2_memory_matching_amended mismatchFrame []
    (fun _ => [mismatchFrame]) 0 mismatchFrame (by decide)).1,
    h.2.1 (by decide), h.2.2.2⟩

/-- Counterexample to the frozen C2: polling address 0, the engine
accepts a `MEMORY_RESPONSE_ID` frame whose payload byte 1 is `0x63 ≠ 0`
and stores its payload byte 0 — the claimed `payload[1] == a` matching
does not exist. -/
theorem C2_counterexample_payload1 :
    readAddr (fun _ => [mismatchFrame]) 0 = some 0x07 ∧
    mismatchFrame.data.getD 1 0 ≠ 0 := by decide

/-! ## Claim C3 -/

/-- Claim C3: for every address outside `0x00`–`0x7F` and every value
outside `0x00`–`0xFF`, `write_memory_byte` fails with the corresponding
invalid-argument error before anything reaches the transport: zero
frames are sent. -/
theorem C3_validation (v1 : Nat) (x1 x2 x3 x4 : List Nat)
    (address value : Nat) (ackW postW : List CanMsg) :
    (127 < address →
      write_memory_byte v1 x1 x2 x3 x4 address value ackW postW =
        ⟨.error (.invalidAddress address), [], false, []⟩) ∧
    (address ≤ 127 → 255 < value →
      write_memory_byte v1 x1 x2 x3 x4 address value ackW postW =
        ⟨.error (.invalidValue value), [], false, []⟩) := by
  constructor
  · intro h
    rw [write_memory_byte, if_pos h]
  · intro ha hv
    rw [write_memory_byte, if_neg (by omega), if_pos hv]

/-- Witness for C3: `write_memory_byte 0x80 0x00` and
`write_memory_byte 0x00 0x100` both fail with zero frames sent. -/
theorem C3_validation_witness :
    write_memory_byte 0 [] [] [] [] 0x80 0x00 [] [] =
      ⟨.error (.invalidAddress 0x80), [], false, []⟩ ∧
    write_memory_byte 0 [] [] [] [] 0x00 0x100 [] [] =
      ⟨.error (.invalidValue 0x100), [], false, []⟩ :=
  ⟨(C3_validation 0 [] [] [] [] 0x80 0x00 [] []).1 (by decide),
   (C3_validation 0 [] [] [] [] 0x00 0x100 [] []).2 (by decide) (by decide)⟩

/-! ## Claim C4 -/

/-- The dangerous-address set as worded by the specification; kept only
to compare against the source's `DANGEROUS_ADDRESSES`. -/
def spec_dangerous_addresses : List Nat :=
  [0x09, 0x0A, 0x24, 0x25, 0x27, 0x28, 0x29, 0x36, 0x37, 0x39, 0x41, 0x65]

/-- Claim C4 (amended): `write_memory_byte` warns exactly for the
addresses of its `DANGEROUS_ADDRESSES` set
`{0x09, 0x0A, 0x10, 0x24, 0x25, 0x27, 0x28, 0x29, 0x41}`, and for every
in-range address — dangerous or not — it still sends the full write
sequence: the frames sent are a function of the address and value alone,
never altered or suppressed by the warning. -/
theorem C4_dangerous_amended (v1 : Nat) (x1 x2 x3 x4 : List Nat)
    (address value : Nat) (ackW postW : List CanMsg)
    (ha : address ≤ 127) (hv : value ≤ 255)
    (hack : (wait_for_ack ackW).isSome = true) :
    ((write_memory_byte v1 x1 x2 x3 x4 address value ackW postW).warned =
        true ↔ address ∈ DANGEROUS_ADDRESSES) ∧
    (write_memory_byte v1 x1 x2 x3 x4 address value ackW postW).framesSent =
      reqFrame ::
        (wmbMsgs v1 x1 x2 x3 x4 address value).map fun d =>
          ⟨REQUEST_ID, d⟩ := by
  obtain ⟨m, hm⟩ := Option.isSome_iff_exists.mp hack
  rw [write_memory_byte, if_neg (by omega), if_neg (by omega)]
  simp [hm]

/-- Witness for C4: writing to the dangerous address `0x10` warns and
still sends the full sequence. -/
theorem C4_dangerous_amended_witness :
    ((write_memory_byte 0 [] [] [] [] 0x10 0x33 [ackOkFrame] []).warned =
        true ↔ (0x10 : Nat) ∈ DANGEROUS_ADDRESSES) ∧
    (write_memory_byte 0 [] [] [] [] 0x10 0x33 [ackOkFrame] []).framesSent =
      reqFrame ::
        (wmbMsgs 0 [] [] [] [] 0x10 0x33).map fun d => ⟨REQUEST_ID, d⟩ :=
  C4_dangerous_amended 0 [] [] [] [] 0x10 0x33 [ackOkFrame] []
    (by decide) (by decide) (by decide)

/-- Counterexample to the frozen C4: address `0x36` belongs to the
specification's set but triggers no warning, while `0x10` is outside
the specification's set yet does warn. -/
theorem C4_counterexample_set :
    (0x36 : Nat) ∈ spec_dangerous_addresses ∧
    (write_memory_byte 0 [] [] [] [] 0x36 0x01 [ackOkFrame] []).warned =
      false ∧
    (0x10 : Nat) ∉ spec_dangerous_addresses ∧
    (write_memory_byte 0 [] [] [] [] 0x10 0x01 [ackOkFrame] []).warned =
      true := by decide

/-! ## Claim C10 -/

/-- Claim C10: once the ranges are valid and the handshake is
acknowledged, `write_memory_byte` reports success for every post-write
window — including the empty one: a totally silent actuator can never
make the write report failure. -/
theorem C10_silent_actuator_success (v1 : Nat) (x1 x2 x3 x4 : List Nat)
    (address value : Nat) (ackW postW : List CanMsg)
    (ha : address ≤ 127) (hv : value ≤ 255)
    (hack : (wait_for_ack ackW).isSome = true) :
    (write_memory_byte v1 x1 x2 x3 x4 address value ackW []).result =
      .ok () ∧
    (write_memory_byte v1 x1 x2 x3 x4 address value ackW postW).result =
      .ok () := by
  obtain ⟨m, hm⟩ := Option.isSome_iff_exists.mp hack
  constructor
  · rw [write_memory_byte, if_neg (by omega), if_neg (by omega)]
    simp [hm]
  · rw [write_memory_byte, if_neg (by omega), if_neg (by omega)]
    simp [hm]

/-- Witness for C10: a valid write against a bus that acknowledges the
handshake and then stays silent reports success. -/
theorem C10_silent_actuator_success_witness :
    (write_memory_byte 0 [] [] [] [] 0x30 0xFF [ackOkFrame] []).result =
      .ok () ∧
    (write_memory_byte 0 [] [] [] []
        0x30 0xFF [ackOkFrame] [otherIdFrame]).result = .ok () :=
  C10_silent_actuator_success 0 [] [] [] [] 0x30 0xFF [ackOkFrame]
    [otherIdFrame] (by decide) (by decide) (by decide)

/-! ## Claim C5 -/

/-- Claim C5 (amended): for every 16-bit target value, the calibration
setters split it as `high = (v >> 8) & 0xFF` and `low = v & 0xFF` (an
8-bit, not 9-bit, shift): the pair is exactly the base-256 digits of
the value.  `set_min` and `set_max` embed these plus the constant
`z = 99`; `set_minmax` takes its high/low bytes from `minpos` alone and
embeds the additional value-derived byte `(maxpos - minpos) / 4`. -/
theorem C5_value_bytes_amended (pos maxpos : Nat) (h : pos < 65536) :
    set_max_x pos = pos / 256 ∧ set_max_y pos = pos % 256 ∧
    256 * set_max_x pos + set_max_y pos = pos ∧
    set_min_x pos = set_max_x pos ∧ set_min_y pos = set_max_y pos ∧
    set_minmax_x pos = set_max_x pos ∧ set_minmax_y pos = set_max_y pos ∧
    set_max_z = 99 ∧ set_min_z = 99 ∧
    set_minmax_z pos maxpos = (maxpos - pos) / 4 ∧
    set_max_value_frames pos =
      [[0x57, 0, 0, (pos >>> 8) &&& 0xFF, 0, 0, 0, 0],
       [0x57, 0, 0, pos &&& 0xFF, 0, 0, 0, 0],
       [0x57, 0, 0, 99, 0, 0, 0, 0]] ∧
    set_min_value_frames pos = set_max_value_frames pos ∧
    set_minmax_value_frames pos maxpos =
      [valueFrame (set_max_x pos), valueFrame (set_max_y pos),
       valueFrame ((maxpos - pos) / 4)] := by
  have hx : set_max_x pos = pos / 256 := by
    rw [set_max_x, Nat.shiftRight_eq_div_pow,
      show (0xFF : Nat) = 2 ^ 8 - 1 by norm_num,
      Nat.and_pow_two_sub_one_eq_mod]
    have hlt : pos / 2 ^ 8 < 2 ^ 8 := by omega
    rw [Nat.mod_eq_of_lt hlt]
    norm_num
  have hy : set_max_y pos = pos % 256 := by
    rw [set_max_y, show (0xFF : Nat) = 2 ^ 8 - 1 by norm_num,
      Nat.and_pow_two_sub_one_eq_mod]
  exact ⟨hx, hy, by rw [hx, hy]; omega, rfl, rfl, rfl, rfl, rfl, rfl,
    rfl, rfl, rfl, rfl⟩

/-- Witness for C5: the value `0x0481` splits into high `0x04`, low
`0x81`, and the `set_minmax` extra byte for `(1153, 1200)` is `11`. -/
theorem C5_value_bytes_amended_witness :
    set_max_x 1153 = 1153 / 256 ∧ set_max_y 1153 = 1153 % 256 ∧
    256 * set_max_x 1153 + set_max_y 1153 = 1153 ∧
    set_min_x 1153 = set_max_x 1153 ∧ set_min_y 1153 = set_max_y 1153 ∧
    set_minmax_x 1153 = set_max_x 1153 ∧
    set_minmax_y 1153 = set_max_y 1153 ∧
    set_max_z = 99 ∧ set_min_z = 99 ∧
    set_minmax_z 1153 1200 = (1200 - 1153) / 4 ∧
    set_max_value_frames 1153 =
      [[0x57, 0, 0, (1153 >>> 8) &&& 0xFF, 0, 0, 0, 0],
       [0x57, 0, 0, 1153 &&& 0xFF, 0, 0, 0, 0],
       [0x57, 0, 0, 99, 0, 0, 0, 0]] ∧
    set_min_value_frames 1153 = set_max_value_frames 1153 ∧
    set_minmax_value_frames 1153 1200 =
      [valueFrame (set_max_x 1153), valueFrame (set_max_y 1153),
       valueFrame ((1200 - 1153) / 4)] :=
  C5_value_bytes_amended 1153 1200 (by decide)

/-- Counterexample to the frozen C5: at the value `0x0200` the source's
high byte is `0x02`, while the specification's `(v >> 9) & 0xFF` gives
`0x01`; the frame sequence embeds `0x02`. -/
theorem C5_counterexample_shift9 :
    set_max_x 0x0200 = 0x02 ∧ spec_high_byte 0x0200 = 0x01 ∧
    set_max_x 0x0200 ≠ spec_high_byte 0x0200 ∧
    set_max_value_frames 0x0200 =
      [[0x57, 0, 0, 2, 0, 0, 0, 0], [0x57, 0, 0, 0, 0, 0, 0, 0],
       [0x57, 0, 0, 99, 0, 0, 0, 0]] := by decide

/-! ## Claim C6 -/

lemma ackAccept_iff (m : CanMsg) :
    ackAccept m = true ↔
      m.arbitrationId = ACK_RESPONSE_ID ∧ 8 ≤ m.data.length ∧
        m.data.getD 7 0 = 0x53 := by
  simp [ackAccept, and_assoc]

/-- Claim C6 (amended): `send_request_and_wait` sends exactly one
REQUEST frame (no internal retry) and succeeds within the window if and
only if some frame arrives carrying `ACK_RESPONSE_ID`, at least 8
payload bytes, and `0x53` at payload byte 7 (not byte 1 as the frozen
claim says); all other interleaved frames are skipped, and with no such
frame the call fails. -/
theorem C6_handshake_amended (w : List CanMsg) :
    (send_request_and_wait w).2 = [reqFrame] ∧
    ((send_request_and_wait w).1 = .ok () ↔
      ∃ m, m ∈ w ∧ m.arbitrationId = ACK_RESPONSE_ID ∧
        8 ≤ m.data.length ∧ m.data.getD 7 0 = 0x53) := by
  refine ⟨rfl, ?_⟩
  have h1 : (send_request_and_wait w).1 = .ok () ↔
      (wait_for_ack w).isSome = true := by
    cases hfa : wait_for_ack w with
    | none => simp [send_request_and_wait, hfa]
    | some m => simp [send_request_and_wait, hfa]
  rw [h1, wait_for_ack, firstAccepted_isSome_iff]
  exact exists_congr fun m => and_congr_right fun _ => ackAccept_iff m

/-- Witness for C6: one acceptable acknowledgment in the window makes
the handshake succeed, with exactly one request frame sent. -/
theorem C6_handshake_amended_witness :
    (send_request_and_wait [ackOkFrame]).2 = [reqFrame] ∧
    ((send_request_and_wait [ackOkFrame]).1 = .ok () ↔
      ∃ m, m ∈ [ackOkFrame] ∧ m.arbitrationId = ACK_RESPONSE_ID ∧
        8 ≤ m.data.length ∧ m.data.getD 7 0 = 0x53) :=
  C6_handshake_amended [ackOkFrame]

/-- Counterexample to the frozen C6: a frame with `0x53` at payload
byte 1 (and not at byte 7) is rejected and the handshake fails, while
the frame actually accepted has `0x53` at byte 7 and not at byte 1. -/
theorem C6_counterexample_payload1_ack :
    ackAccept specAckFrame = false ∧
    (send_request_and_wait [specAckFrame]).1 ≠ .ok () ∧
    specAckFrame.data.getD 1 0 = 0x53 ∧
    ackAccept ackOkFrame = true ∧
    ackOkFrame.data.getD 1 0 ≠ 0x53 := by decide

/-! ## Claim C7 -/

/-- Claim C7: for every 8-byte telemetry payload the decoder yields
`status = bytes[0]`, `position = (bytes[2] << 8) | bytes[3]`,
`temperatureC = bytes[5]`, `motorLoad = (bytes[6] << 8) | bytes[7]`;
the open-percentage formula `(688 - position) * 100 / 476` is applied
exactly when the position lies in `[212, 688]` (outside it the decoder
stores the sentinel `-1`, no percentage); and the payload
`[0x04, 0x00, 0x00, 0xB2, 0x00, 0x19, 0x00, 0x00]` decodes to status
`0x04`, position 178, temperature 25, motor load 0. -/
theorem C7_decode_telemetry (b : List Nat) (hb : b.length = 8) :
    (decodeTelemetry b).status = b.getD 0 0 ∧
    (decodeTelemetry b).position = (b.getD 2 0) <<< 8 ||| b.getD 3 0 ∧
    (decodeTelemetry b).temperatureC = b.getD 5 0 ∧
    (decodeTelemetry b).motorLoad = (b.getD 6 0) <<< 8 ||| b.getD 7 0 ∧
    (212 ≤ (decodeTelemetry b).position →
      (decodeTelemetry b).position ≤ 688 →
      (decodeTelemetry b).percentage =
        (((688 - (decodeTelemetry b).position) * 100) / 476 : Nat)) ∧
    ((decodeTelemetry b).position < 212 →
      (decodeTelemetry b).percentage = -1) ∧
    (688 < (decodeTelemetry b).position →
      (decodeTelemetry b).percentage = -1) ∧
    decodeTelemetry [0x04, 0x00, 0x00, 0xB2, 0x00, 0x19, 0x00, 0x00] =
      ⟨0x04, 178, 25, 0, -1⟩ := by
  have hml : (decodeTelemetry b).motorLoad =
      (b.getD 6 0) <<< 8 ||| b.getD 7 0 := by
    simp [decodeTelemetry, hb]
  have hperc : (decodeTelemetry b).percentage =
      if (decodeTelemetry b).position ≤ 688 ∧
          212 ≤ (decodeTelemetry b).position then
        ((((688 - (decodeTelemetry b).position) * 100) / 476 : Nat) : Int)
      else -1 := rfl
  refine ⟨rfl, rfl, rfl, hml, ?_, ?_, ?_, by decide⟩
  · intro h1 h2
    rw [hperc, if_pos ⟨h2, h1⟩]
  · intro h1
    rw [hperc, if_neg (by omega)]
  · intro h1
    rw [hperc, if_neg (by omega)]

/-- Witness for C7: the reference payload decodes to position 178 with
the sentinel percentage. -/
theorem C7_decode_telemetry_witness :
    (decodeTelemetry [0x04, 0x00, 0x00, 0xB2, 0x00, 0x19, 0x00, 0x00]).position = 178 ∧
    (decodeTelemetry [0x04, 0x00, 0x00, 0xB2, 0x00, 0x19, 0x00, 0x00]).percentage = -1 := by
  have h := C7_decode_telemetry
    [0x04, 0x00, 0x00, 0xB2, 0x00, 0x19, 0x00, 0x00] (by decide)
  exact ⟨h.2.1.trans (by decide),
    h.2.2.2.2.2.1 (by rw [h.2.1]; decide)⟩

/-! ## Claim C8 -/

/-- A 128-byte image with `0x06` at `0x2A` and `0x96` at `0x2C`. -/
def memC8 : List Nat :=
  ((List.replicate 128 0).set 0x2A 0x06).set 0x2C 0x96

/-- Claim C8: for every 128-byte memory image the CAN-ID derivation is
the pure function `(mem[0x2A] << 8) | (mem[0x2C] << 2)`; with
`mem[0x2A] = 0x06` and `mem[0x2C] = 0x96` it yields `0x658`. -/
theorem C8_can_id_derivation (mem : List Nat) (h : mem.length = 128) :
    getPositionFormat mem =
      some ((mem.getD 0x2A 0) <<< 8 ||| (mem.getD 0x2C 0) <<< 2) ∧
    (mem.getD 0x2A 0 = 0x06 → mem.getD 0x2C 0 = 0x96 →
      getPositionFormat mem = some 0x658) := by
  have h1 : getPositionFormat mem =
      some ((mem.getD 0x2A 0) <<< 8 ||| (mem.getD 0x2C 0) <<< 2) := by
    rw [getPositionFormat, if_pos (by omega)]
  refine ⟨h1, ?_⟩
  intro ha hc
  rw [h1, ha, hc]
  decide

set_option maxRecDepth 4096 in
/-- Witness for C8: the fixture image derives identifier `0x658`. -/
theorem C8_can_id_derivation_witness : getPositionFormat memC8 = some 0x658 :=
  (C8_can_id_derivation memC8 (by decide)).2 (by decide) (by decide)

/-! ## Claim C9 -/

/-- Claim C9 (code bug): the specification and the usage documentation
promise that `find_end_positions` returns the discovered end positions
as a `(min, max)` pair, but the function body ends without a `return`
statement: every run that completes its 3-phase choreography evaluates
to `None` — no pair is ever produced, whatever telemetry arrived. -/
theorem C9_find_end_positions_no_pair (w1 w2 w3 : List CanMsg) :
    (find_end_positions w1 w2 w3).result = none ∧
    (∀ mn mx : Nat, (find_end_positions w1 w2 w3).result ≠ some (mn, mx)) ∧
    (find_end_positions w1 w2 w3).printed =
      positionFrames w1 ++ positionFrames w2 ++ positionFrames w3 := by
  refine ⟨rfl, ?_, rfl⟩
  intro mn mx hsome
  simp [find_end_positions] at hsome

/-- Witness for C9: a run with empty poll windows completes and yields
no pair. -/
theorem C9_find_end_positions_no_pair_witness :
    (find_end_positions [] [] []).result = none :=
  (C9_find_end_positions_no_pair [] [] []).1

end Hella
